import Mathlib

/-!
Formal model of the streamr-client-javascript subscription and resend engine.

The definitions below are shallow embeddings of the JavaScript source:
control-message types and the request/response pairing table, the
`waitForResponse` waiter, the `Subscriptions` registry with its memoized
subscribe/unsubscribe sends, option validation and resend-request
construction, message signing, and stream-partition computation.
Components whose implementation is not part of the source tree (the
verification-promise cache, the ordering tracker and the unicast
dispatcher, which survive only through their test suites) are modelled
from the specification and marked as such in their doc comments.
-/

namespace Streamr

/-- Control-message types, mirroring `ControlMessage.TYPES` of
streamr-client-protocol as used by the subscribe engine. -/
inductive MsgType
  | subscribeRequest
  | subscribeResponse
  | unsubscribeRequest
  | unsubscribeResponse
  | resendLastRequest
  | resendFromRequest
  | resendRangeRequest
  | resendResponseResending
  | resendResponseResent
  | resendResponseNoResend
  | broadcastMessage
  | unicastMessage
  | errorResponse
  deriving DecidableEq, Repr

/-- Mirrors `const ResendResponses = [ResendResponseResending, ResendResponseNoResend]`. -/
def ResendResponses : List MsgType :=
  [MsgType.resendResponseResending, MsgType.resendResponseNoResend]

/-- Mirrors the `PAIRS` map: the expected response types for each request type. -/
def PAIRS : MsgType → Option (List MsgType)
  | MsgType.subscribeRequest => some [MsgType.subscribeResponse]
  | MsgType.unsubscribeRequest => some [MsgType.unsubscribeResponse]
  | MsgType.resendLastRequest => some ResendResponses
  | MsgType.resendFromRequest => some ResendResponses
  | MsgType.resendRangeRequest => some ResendResponses
  | _ => none

/-- An inbound control message as observed by `waitForResponse` handlers:
its type, its `requestId`, and (for `ErrorResponse`) its error fields. -/
structure Inbound where
  type : MsgType
  requestId : String
  errorCode : String
  errorMessage : String
  deriving DecidableEq, Repr

/-- A waiter registered by `waitForResponse`: the expected response types and
the `requestId` of the request it belongs to. -/
structure Waiter where
  types : List MsgType
  requestId : String
  deriving DecidableEq, Repr

/-- The outcome of a waiter's promise. -/
inductive WaiterResult
  | pending
  | resolved (res : Inbound)
  | rejected (code : String) (message : String)
  deriving DecidableEq, Repr

/-- Whether a waiter result is a rejection. -/
def WaiterResult.isRejected : WaiterResult → Bool
  | WaiterResult.rejected _ _ => true
  | _ => false

/-- One inbound message hitting the handlers registered by `waitForResponse`:
`onResponse` is registered for every type in `types` (it ignores messages with a
different `requestId`), and `onErrorResponse` is registered for `ErrorResponse`. -/
def waiterStep (w : Waiter) (m : Inbound) : WaiterResult :=
  if m.type ∈ w.types then
    if m.requestId = w.requestId then WaiterResult.resolved m else WaiterResult.pending
  else if m.type = MsgType.errorResponse then
    if m.requestId = w.requestId then WaiterResult.rejected m.errorCode m.errorMessage
    else WaiterResult.pending
  else WaiterResult.pending

/-- Runs a waiter over a sequence of inbound messages.  The first message that
settles the waiter determines the result; `cleanup()` removes both handlers on
settlement, so later messages are ignored. -/
def runWaiter (w : Waiter) : List Inbound → WaiterResult
  | [] => WaiterResult.pending
  | m :: rest =>
    match waiterStep w m with
    | WaiterResult.pending => runWaiter w rest
    | r => r

/-- Connection-level events: inbound control messages and disconnects.
`waitForResponse` registers handlers only for control-message types, so a
disconnect is not observed by any waiter handler. -/
inductive ConnEvent
  | message (m : Inbound)
  | disconnected
  deriving DecidableEq, Repr

/-- Runs a waiter over connection events.  A `disconnected` event triggers no
handler registered by `waitForResponse`. -/
def runWaiterEv (w : Waiter) : List ConnEvent → WaiterResult
  | [] => WaiterResult.pending
  | ConnEvent.disconnected :: rest => runWaiterEv w rest
  | ConnEvent.message m :: rest =>
    match waiterStep w m with
    | WaiterResult.pending => runWaiterEv w rest
    | r => r

/-- No expected-response list in the `PAIRS` table contains `ErrorResponse`. -/
theorem errorResponse_not_in_pairs (rt : MsgType) (ts : List MsgType)
    (h : PAIRS rt = some ts) : MsgType.errorResponse ∉ ts := by
  cases rt <;> simp only [PAIRS, ResendResponses, Option.some.injEq,
    reduceCtorEq] at h <;> first
    | exact absurd h (by simp)
    | (subst h; decide)

/-- Messages that leave the waiter pending do not affect the final result. -/
theorem runWaiter_append_pending (w : Waiter) (pre rest : List Inbound)
    (hpre : ∀ x ∈ pre, waiterStep w x = WaiterResult.pending) :
    runWaiter w (pre ++ rest) = runWaiter w rest := by
  induction pre with
  | nil => rfl
  | cons x xs ih =>
    have hx : waiterStep w x = WaiterResult.pending := hpre x (by simp)
    have hxs : ∀ y ∈ xs, waiterStep w y = WaiterResult.pending := by
      intro y hy; exact hpre y (by simp [hy])
    simp only [List.cons_append, runWaiter, hx]
    exact ih hxs

/-- Claim C4: for every request sent with identifier `requestId`, the registered
waiter resolves with the first inbound message whose `requestId` matches and
whose type is in the expected set given by `PAIRS` (SubscribeRequest to
SubscribeResponse, UnsubscribeRequest to UnsubscribeResponse, resend requests to
ResendResponseResending or ResendResponseNoResend), rejects with an error
carrying `errorCode` and `errorMessage` on a matching `ErrorResponse`, and in
both cases the handlers are removed, so later messages (`post`) are ignored. -/
theorem claim_C4_waiter_correlation (rt : MsgType) (w : Waiter)
    (pre post : List Inbound) (m : Inbound)
    (hw : PAIRS rt = some w.types)
    (hpre : ∀ x ∈ pre, waiterStep w x = WaiterResult.pending)
    (hid : m.requestId = w.requestId) :
    (PAIRS MsgType.subscribeRequest = some [MsgType.subscribeResponse]
      ∧ PAIRS MsgType.unsubscribeRequest = some [MsgType.unsubscribeResponse]
      ∧ PAIRS MsgType.resendLastRequest = some ResendResponses
      ∧ PAIRS MsgType.resendFromRequest = some ResendResponses
      ∧ PAIRS MsgType.resendRangeRequest = some ResendResponses
      ∧ ResendResponses
          = [MsgType.resendResponseResending, MsgType.resendResponseNoResend])
    ∧ (m.type ∈ w.types →
        runWaiter w (pre ++ m :: post) = WaiterResult.resolved m)
    ∧ (m.type = MsgType.errorResponse →
        runWaiter w (pre ++ m :: post)
          = WaiterResult.rejected m.errorCode m.errorMessage) := by
  refine ⟨by decide, ?_, ?_⟩
  · intro hmem
    rw [runWaiter_append_pending w pre _ hpre]
    simp only [runWaiter, waiterStep, if_pos hmem, if_pos hid]
  · intro htype
    have hnotmem : m.type ∉ w.types := by
      rw [htype]; exact errorResponse_not_in_pairs rt w.types hw
    rw [runWaiter_append_pending w pre _ hpre]
    simp only [runWaiter, waiterStep, if_neg hnotmem, if_pos htype, if_pos hid]

/-- Witness for claim C4 at a concrete trace: a subscribe waiter skips a
response with a foreign request id and resolves on the matching one. -/
theorem claim_C4_witness :
    runWaiter ⟨[MsgType.subscribeResponse], "r1"⟩
        (⟨MsgType.subscribeResponse, "r0", "", ""⟩
          :: ⟨MsgType.subscribeResponse, "r1", "", ""⟩ :: [])
      = WaiterResult.resolved ⟨MsgType.subscribeResponse, "r1", "", ""⟩ :=
  (claim_C4_waiter_correlation MsgType.subscribeRequest
      ⟨[MsgType.subscribeResponse], "r1"⟩
      [⟨MsgType.subscribeResponse, "r0", "", ""⟩] []
      ⟨MsgType.subscribeResponse, "r1", "", ""⟩
      (by decide) (by decide) rfl).2.1 (by decide)

/-- Claim C5 counterexample: a disconnect while a subscribe waiter is pending
does not reject the waiter; no handler registered by `waitForResponse` observes
the disconnect, so the waiter stays pending. -/
theorem claim_C5_counterexample :
    runWaiterEv ⟨[MsgType.subscribeResponse], "r1"⟩ [ConnEvent.disconnected]
      = WaiterResult.pending
    ∧ (runWaiterEv ⟨[MsgType.subscribeResponse], "r1"⟩
        [ConnEvent.disconnected]).isRejected = false := by
  decide

/-- Claim C5 (amended): a disconnect does not settle a pending waiter at all —
`waitForResponse` registers handlers only for the expected response types and
`ErrorResponse`, so disconnect events are invisible to every waiter. -/
theorem claim_C5_amended (w : Waiter) (evs : List ConnEvent) :
    runWaiterEv w (ConnEvent.disconnected :: evs) = runWaiterEv w evs := rfl

/-- Mirrors `SubKey`: the `(streamId, streamPartition)` pair rendered as the
map key `streamId|streamPartition`. -/
def SubKey (streamId : String) (streamPartition : Nat) : String :=
  streamId ++ "|" ++ toString streamPartition

/-- The per-key `Subscription` of the subscribe engine.  `memoSubscribe` and
`memoUnsubscribe` model the `pMemoize` caches of `sendSubscribe` and
`sendUnsubscribe` (filled once the memoized call has run, emptied by
`pMemoize.clear`); `streams` is `this.streams.size`.  `isSubscribed` is the
user-visible subscription state, modelled from the spec (the source engine
exposes it through promise resolution and the old event-emitting Subscription
class, which is not part of the source tree). -/
structure EngineSub where
  memoSubscribe : Bool
  memoUnsubscribe : Bool
  streams : Nat
  isSubscribed : Bool
  deriving DecidableEq, Repr

/-- On-wire control requests sent by the engine, tagged by subscription key. -/
inductive WireRequest
  | subscribeReq (key : String)
  | unsubscribeReq (key : String)
  deriving DecidableEq, Repr

/-- User-visible subscription events.  Modelled from the spec: `subscribed`
when a logical subscribe call resolves, `unsubscribed` on the transition out of
the subscribed state (at most once per transition). -/
inductive ClientEvent
  | subscribed (key : String)
  | unsubscribed (key : String)
  deriving DecidableEq, Repr

/-- The `Subscriptions` registry state: the key-indexed subscription map, the
requests sent on the wire (oldest first) and the emitted user events. -/
structure Engine where
  subs : List (String × EngineSub)
  wire : List WireRequest
  events : List ClientEvent
  deriving DecidableEq, Repr

/-- Lookup in the subscription map (`this.subscriptions.get(key)`). -/
def mapGet : List (String × EngineSub) → String → Option EngineSub
  | [], _ => none
  | (k, v) :: rest, key => if k = key then some v else mapGet rest key

/-- Update in the subscription map (`this.subscriptions.set(key, sub)`). -/
def mapSet : List (String × EngineSub) → String → EngineSub → List (String × EngineSub)
  | [], key, v => [(key, v)]
  | (k, w) :: rest, key, v =>
    if k = key then (k, v) :: rest else (k, w) :: mapSet rest key v

/-- The registry with no subscriptions, nothing sent and nothing emitted:
the start of a connected epoch. -/
def emptyEngine : Engine := ⟨[], [], []⟩

/-- One logical `Subscriptions.subscribe(options)` call on a validated key,
with a responsive broker (as in the test connection mock, every sent request is
answered, so the awaited response resolves).  The call fetches or creates the
per-key Subscription, runs `Subscription.subscribe()` under its `pLimit(1)`
queue: it clears the `sendUnsubscribe` memo, runs the memoized `sendSubscribe`
(which sends a `SubscribeRequest` only when the memo is empty) and registers a
new message stream for the caller. -/
def subscribeCall (e : Engine) (key : String) : Engine :=
  let s := (mapGet e.subs key).getD ⟨false, false, 0, false⟩
  let sendsWire := !s.memoSubscribe
  { subs := mapSet e.subs key ⟨true, false, s.streams + 1, true⟩
    wire := if sendsWire then e.wire ++ [WireRequest.subscribeReq key] else e.wire
    events := e.events ++ [ClientEvent.subscribed key] }

/-- One `Subscriptions.unsubscribe(options)` call.  With no subscription or no
open streams it is a no-op; otherwise `sub.return()` closes every stream, the
last `_cleanup` runs `Subscription.unsubscribe()`: it clears the
`sendSubscribe` memo and runs the memoized `sendUnsubscribe` (which sends an
`UnsubscribeRequest` only when the memo is empty).  The `unsubscribed` event is
modelled from the spec: it is emitted exactly on the transition out of the
subscribed state. -/
def unsubscribeCall (e : Engine) (key : String) : Engine :=
  match mapGet e.subs key with
  | none => e
  | some s =>
    if s.streams = 0 then e
    else
      let sendsWire := !s.memoUnsubscribe
      { subs := mapSet e.subs key ⟨false, true, 0, false⟩
        wire := if sendsWire then e.wire ++ [WireRequest.unsubscribeReq key] else e.wire
        events := if s.isSubscribed then e.events ++ [ClientEvent.unsubscribed key]
                  else e.events }

/-- Iterates `n` logical subscribe calls on the same key. -/
def subscribeN : Nat → Engine → String → Engine
  | 0, e, _ => e
  | Nat.succ n, e, key => subscribeN n (subscribeCall e key) key

/-- Updating a key makes it visible to lookup. -/
theorem mapGet_mapSet_self (m : List (String × EngineSub)) (key : String)
    (v : EngineSub) : mapGet (mapSet m key v) key = some v := by
  induction m with
  | nil => simp [mapSet, mapGet]
  | cons p rest ih =>
    obtain ⟨k, w⟩ := p
    by_cases hk : k = key
    · simp [mapSet, mapGet, hk]
    · simp [mapSet, mapGet, hk, ih]

/-- Once the `sendSubscribe` memo is filled, further subscribe calls send
nothing on the wire and each one still resolves as subscribed. -/
theorem subscribeN_steady (key : String) : ∀ (n : Nat) (e : Engine) (s : EngineSub),
    mapGet e.subs key = some s → s.memoSubscribe = true →
    (subscribeN n e key).wire = e.wire
    ∧ (subscribeN n e key).events
        = e.events ++ List.replicate n (ClientEvent.subscribed key) := by
  intro n
  induction n with
  | zero => intro e s _ _; simp [subscribeN]
  | succ n ih =>
    intro e s hget hmemo
    have hstep : subscribeCall e key
        = { subs := mapSet e.subs key ⟨true, false, s.streams + 1, true⟩
            wire := e.wire
            events := e.events ++ [ClientEvent.subscribed key] } := by
      simp [subscribeCall, hget, hmemo]
    have hnext := ih (subscribeCall e key) ⟨true, false, s.streams + 1, true⟩
      (by rw [hstep]; exact mapGet_mapSet_self _ _ _) rfl
    rw [subscribeN, hnext.1, hnext.2, hstep]
    simp [List.replicate_succ]

/-- Claim C1: for every `(streamId, streamPartition)` key, `n` logical
subscribe calls within one connected epoch send exactly one `SubscribeRequest`
on the wire for that key, and every one of the `n` logical subscribers reaches
the subscribed state. -/
theorem claim_C1_single_subscribe_request (streamId : String)
    (streamPartition : Nat) (n : Nat) (h : 1 ≤ n) :
    (subscribeN n emptyEngine (SubKey streamId streamPartition)).wire
      = [WireRequest.subscribeReq (SubKey streamId streamPartition)]
    ∧ (subscribeN n emptyEngine (SubKey streamId streamPartition)).events
      = List.replicate n (ClientEvent.subscribed (SubKey streamId streamPartition)) := by
  set key := SubKey streamId streamPartition with hkey
  obtain ⟨n, rfl⟩ : ∃ m, n = m + 1 := ⟨n - 1, by omega⟩
  have hfirst : subscribeCall emptyEngine key
      = { subs := [(key, ⟨true, false, 1, true⟩)]
          wire := [WireRequest.subscribeReq key]
          events := [ClientEvent.subscribed key] } := by
    simp [subscribeCall, emptyEngine, mapGet, mapSet]
  have hrest := subscribeN_steady key n (subscribeCall emptyEngine key)
    ⟨true, false, 1, true⟩ (by rw [hfirst]; simp [mapGet]) rfl
  have hiter : subscribeN (n + 1) emptyEngine key
      = subscribeN n (subscribeCall emptyEngine key) key := rfl
  rw [hiter, hrest.1, hrest.2, hfirst]
  simp [List.replicate_succ]

/-- Witness for claim C1: three subscribe calls on stream `s1`, partition 0. -/
theorem claim_C1_witness :
    (subscribeN 3 emptyEngine (SubKey "s1" 0)).wire
      = [WireRequest.subscribeReq (SubKey "s1" 0)]
    ∧ (subscribeN 3 emptyEngine (SubKey "s1" 0)).events
      = List.replicate 3 (ClientEvent.subscribed (SubKey "s1" 0)) :=
  claim_C1_single_subscribe_request "s1" 0 3 (by decide)

/-- Claim C6: on a subscribed subscription (open streams, empty
`sendUnsubscribe` memo), calling unsubscribe twice sends exactly one
`UnsubscribeRequest`, emits `unsubscribed` exactly once, and the second call is
a no-op. -/
theorem claim_C6_unsubscribe_idempotent (e : Engine) (key : String)
    (s : EngineSub)
    (hget : mapGet e.subs key = some s)
    (hstreams : 0 < s.streams)
    (hmemo : s.memoUnsubscribe = false)
    (hsubd : s.isSubscribed = true) :
    unsubscribeCall (unsubscribeCall e key) key = unsubscribeCall e key
    ∧ (unsubscribeCall e key).wire = e.wire ++ [WireRequest.unsubscribeReq key]
    ∧ (unsubscribeCall e key).events = e.events ++ [ClientEvent.unsubscribed key] := by
  have hne : ¬ s.streams = 0 := by omega
  have hfirst : unsubscribeCall e key
      = { subs := mapSet e.subs key ⟨false, true, 0, false⟩
          wire := e.wire ++ [WireRequest.unsubscribeReq key]
          events := e.events ++ [ClientEvent.unsubscribed key] } := by
    simp [unsubscribeCall, hget, hne, hmemo, hsubd]
  refine ⟨?_, by rw [hfirst], by rw [hfirst]⟩
  conv_lhs => rw [hfirst]
  rw [hfirst]
  simp [unsubscribeCall, mapGet_mapSet_self]

/-- Witness for claim C6: subscribe once on `s1|0`, then unsubscribe twice. -/
theorem claim_C6_witness :
    unsubscribeCall (unsubscribeCall (subscribeCall emptyEngine (SubKey "s1" 0))
        (SubKey "s1" 0)) (SubKey "s1" 0)
      = unsubscribeCall (subscribeCall emptyEngine (SubKey "s1" 0)) (SubKey "s1" 0)
    ∧ (unsubscribeCall (subscribeCall emptyEngine (SubKey "s1" 0)) (SubKey "s1" 0)).wire
      = (subscribeCall emptyEngine (SubKey "s1" 0)).wire
          ++ [WireRequest.unsubscribeReq (SubKey "s1" 0)]
    ∧ (unsubscribeCall (subscribeCall emptyEngine (SubKey "s1" 0)) (SubKey "s1" 0)).events
      = (subscribeCall emptyEngine (SubKey "s1" 0)).events
          ++ [ClientEvent.unsubscribed (SubKey "s1" 0)] :=
  claim_C6_unsubscribe_idempotent (subscribeCall emptyEngine (SubKey "s1" 0))
    (SubKey "s1" 0) ⟨true, false, 1, true⟩ (by decide) (by decide) rfl rfl

/-- A message reference `(timestamp, sequenceNumber)`; both are JavaScript
numbers, modelled as integers. -/
structure MsgRef where
  timestamp : Int
  sequenceNumber : Int
  deriving DecidableEq, Repr

/-- The raw options object passed to `subscribe`/`resend`: `streamId` and
`streamPartition` may be absent, and the resend fields `last`, `from`, `to`,
`publisherId`, `msgChainId` ride along through the shallow copy. -/
structure RawOpts where
  streamId : Option String
  streamPartition : Option Nat
  last : Option Int
  fromRef : Option MsgRef
  toRef : Option MsgRef
  publisherId : Option String
  msgChainId : Option String
  deriving DecidableEq, Repr

/-- The JavaScript argument of `validateOptions`: a falsey value (undefined,
null, 0, false), a string (the stream id; the empty string is falsey), an
object, or a truthy value of another type. -/
inductive OptionsArg
  | nullish
  | str (s : String)
  | obj (o : RawOpts)
  | otherTruthy
  deriving DecidableEq, Repr

/-- Validated options: `streamId` set and nonempty, `streamPartition`
defaulted to 0, resend fields carried through. -/
structure SubOpts where
  streamId : String
  streamPartition : Nat
  last : Option Int
  fromRef : Option MsgRef
  toRef : Option MsgRef
  publisherId : Option String
  msgChainId : Option String
  deriving DecidableEq, Repr

/-- Errors thrown by the engine's option handling. -/
inductive JsError
  | optionsRequired
  | optionsWrongType
  | streamIdRequired
  | cantResendWithoutOptions
  deriving DecidableEq, Repr

/-- Mirrors `validateOptions(optionsOrStreamId)`: a falsey argument throws
`options is required`, a string becomes `(streamId, streamPartition 0)`, an
object is shallow-copied with `streamPartition` defaulting to 0, anything else
throws `options must be an object`; a missing or empty `streamId` throws
`streamId must be set`. -/
def validateOptions : OptionsArg → Except JsError SubOpts
  | OptionsArg.nullish => Except.error JsError.optionsRequired
  | OptionsArg.str s =>
    if s = "" then Except.error JsError.optionsRequired
    else Except.ok ⟨s, 0, none, none, none, none, none⟩
  | OptionsArg.obj o =>
    match o.streamId with
    | none => Except.error JsError.streamIdRequired
    | some sid =>
      if sid = "" then Except.error JsError.streamIdRequired
      else Except.ok ⟨sid, o.streamPartition.getD 0, o.last, o.fromRef, o.toRef,
        o.publisherId, o.msgChainId⟩
  | OptionsArg.otherTruthy => Except.error JsError.optionsWrongType

/-- JavaScript `options.last > 0`: false when `last` is absent. -/
def jsGtZero : Option Int → Bool
  | some n => decide (0 < n)
  | none => false

/-- A resend control request as built by `resend(client, options)`. -/
inductive ResendRequest
  | lastReq (streamId : String) (streamPartition : Nat) (requestId : String)
      (numberLast : Int) (sessionToken : String)
  | fromReq (streamId : String) (streamPartition : Nat) (requestId : String)
      (fromMsgRef : MsgRef) (publisherId : Option String)
      (msgChainId : Option String) (sessionToken : String)
  | rangeReq (streamId : String) (streamPartition : Nat) (requestId : String)
      (fromMsgRef : MsgRef) (toMsgRef : MsgRef) (publisherId : Option String)
      (msgChainId : Option String) (sessionToken : String)
  deriving DecidableEq, Repr

/-- Mirrors the request-construction chain of `resend`: `options.last > 0`
selects `ResendLastRequest`; otherwise `from` without `to` selects
`ResendFromRequest`; otherwise `from` with `to` selects `ResendRangeRequest`;
with no variant it throws `Can't _requestResend without resend options`. -/
def buildResendRequest (o : SubOpts) (requestId sessionToken : String) :
    Except JsError ResendRequest :=
  if jsGtZero o.last then
    Except.ok (ResendRequest.lastReq o.streamId o.streamPartition requestId
      (o.last.getD 0) sessionToken)
  else
    match o.fromRef, o.toRef with
    | some f, none => Except.ok (ResendRequest.fromReq o.streamId
        o.streamPartition requestId f o.publisherId o.msgChainId sessionToken)
    | some f, some t => Except.ok (ResendRequest.rangeReq o.streamId
        o.streamPartition requestId f t o.publisherId o.msgChainId sessionToken)
    | none, _ => Except.error JsError.cantResendWithoutOptions

/-- Claim C7 counterexample: options carrying more than one resend variant
(`last` together with `from`) are not rejected — validation accepts them and
the resend path silently picks `ResendLastRequest`. -/
theorem claim_C7_counterexample :
    validateOptions (OptionsArg.obj
        ⟨some "stream1", none, some 5, some ⟨1, 0⟩, none, none, none⟩)
      = Except.ok ⟨"stream1", 0, some 5, some ⟨1, 0⟩, none, none, none⟩
    ∧ buildResendRequest ⟨"stream1", 0, some 5, some ⟨1, 0⟩, none, none, none⟩
        "r1" "tok"
      = Except.ok (ResendRequest.lastReq "stream1" 0 "r1" 5 "tok") :=
  ⟨rfl, rfl⟩

/-- Claim C7 (amended): `subscribe(opts, handler)` rejects missing opts, opts
of a non-string non-object type, and an absent or empty `streamId`, and
defaults the partition to 0; the resend request is a `ResendLastRequest` when
`last > 0` (even when `from`/`to` are also given — multiple resend variants are
not rejected), else a `ResendFromRequest` when `from` is given without `to`, a
`ResendRangeRequest` when both `from` and `to` are given, and an error when no
variant is given. -/
theorem claim_C7_validation (s : String) (part : Option Nat) (lastN : Int)
    (f t : MsgRef) (pid mcid : Option String) (reqId tok : String)
    (hs : s ≠ "") (hlast : 0 < lastN) :
    validateOptions OptionsArg.nullish = Except.error JsError.optionsRequired
    ∧ validateOptions (OptionsArg.str "") = Except.error JsError.optionsRequired
    ∧ validateOptions OptionsArg.otherTruthy
        = Except.error JsError.optionsWrongType
    ∧ validateOptions (OptionsArg.obj ⟨none, part, some lastN, some f, some t, pid, mcid⟩)
        = Except.error JsError.streamIdRequired
    ∧ validateOptions (OptionsArg.obj ⟨some "", part, some lastN, some f, some t, pid, mcid⟩)
        = Except.error JsError.streamIdRequired
    ∧ validateOptions (OptionsArg.str s) = Except.ok ⟨s, 0, none, none, none, none, none⟩
    ∧ validateOptions (OptionsArg.obj ⟨some s, none, some lastN, some f, some t, pid, mcid⟩)
        = Except.ok ⟨s, 0, some lastN, some f, some t, pid, mcid⟩
    ∧ buildResendRequest ⟨s, 0, some lastN, some f, some t, pid, mcid⟩ reqId tok
        = Except.ok (ResendRequest.lastReq s 0 reqId lastN tok)
    ∧ buildResendRequest ⟨s, 0, none, some f, none, pid, mcid⟩ reqId tok
        = Except.ok (ResendRequest.fromReq s 0 reqId f pid mcid tok)
    ∧ buildResendRequest ⟨s, 0, none, some f, some t, pid, mcid⟩ reqId tok
        = Except.ok (ResendRequest.rangeReq s 0 reqId f t pid mcid tok)
    ∧ buildResendRequest ⟨s, 0, none, none, none, pid, mcid⟩ reqId tok
        = Except.error JsError.cantResendWithoutOptions := by
  refine ⟨rfl, rfl, rfl, rfl, rfl, ?_, ?_, ?_, rfl, rfl, rfl⟩
  · simp [validateOptions, hs]
  · simp [validateOptions, hs, Option.getD]
  · simp [buildResendRequest, jsGtZero, hlast]

/-- Witness for claim C7 at concrete options on stream `s1`. -/
theorem claim_C7_witness :
    validateOptions (OptionsArg.str "s1")
      = Except.ok ⟨"s1", 0, none, none, none, none, none⟩
    ∧ buildResendRequest ⟨"s1", 0, some 5, some ⟨1, 0⟩, some ⟨3, 0⟩, none, none⟩
        "r1" "tok"
      = Except.ok (ResendRequest.lastReq "s1" 0 "r1" 5 "tok")
    ∧ buildResendRequest ⟨"s1", 0, none, some ⟨1, 0⟩, some ⟨3, 0⟩, none, none⟩
        "r1" "tok"
      = Except.ok (ResendRequest.rangeReq "s1" 0 "r1" ⟨1, 0⟩ ⟨3, 0⟩ none none "tok") :=
  have h := claim_C7_validation "s1" none 5 ⟨1, 0⟩ ⟨3, 0⟩ none none "r1" "tok"
    (by decide) (by decide)
  ⟨h.2.2.2.2.2.1, h.2.2.2.2.2.2.2.1, h.2.2.2.2.2.2.2.2.2.1⟩

/-- Modelled from the spec: the MessageVerifier. The dispatcher obtains one
verification handle per delivered message and the source attaches the
verification promise to the delivered-message object, so repeated calls return
the identical pending-or-settled promise.  Promise identity is modelled by a
creation counter; `verifyCalls` counts how many actual cryptographic
verifications were started. -/
structure VerifierState where
  nextPromiseId : Nat
  verifyCalls : Nat
  deriving DecidableEq, Repr

/-- Modelled from the spec: the per-delivery cache slot holding the
verification promise attached to the delivered message, if already created. -/
structure DeliveryCache where
  cachedPromise : Option Nat
  deriving DecidableEq, Repr

/-- Modelled from the spec: one call of the verification function handed to a
subscription's delivery path.  The first call starts the verification and
caches its promise; every later call returns the cached promise. -/
def callVerify (vs : VerifierState) (c : DeliveryCache) :
    Nat × VerifierState × DeliveryCache :=
  match c.cachedPromise with
  | some p => (p, vs, c)
  | none => (vs.nextPromiseId, ⟨vs.nextPromiseId + 1, vs.verifyCalls + 1⟩,
      ⟨some vs.nextPromiseId⟩)

/-- Runs `k` calls of the verification function on one delivery, collecting
the promise returned by each call.  The calls may come from any number of
subscriptions handed the same delivery; they share the per-delivery cache. -/
def runVerifyCalls : Nat → VerifierState → DeliveryCache →
    List Nat × VerifierState × DeliveryCache
  | 0, vs, c => ([], vs, c)
  | Nat.succ k, vs, c =>
    let step := callVerify vs c
    let rest := runVerifyCalls k step.2.1 step.2.2
    (step.1 :: rest.1, rest.2)

/-- Once the promise is cached, every further call returns it and no further
verification is started. -/
theorem runVerifyCalls_cached (k : Nat) : ∀ (vs : VerifierState) (p : Nat),
    runVerifyCalls k vs ⟨some p⟩ = (List.replicate k p, vs, ⟨some p⟩) := by
  induction k with
  | zero => intro vs p; rfl
  | succ k ih =>
    intro vs p
    simp [runVerifyCalls, callVerify, ih, List.replicate_succ]

/-- Claim C2: for a delivered message routed to any number of subscriptions,
all `k` invocations of the verification function on that delivery return the
identical promise, and the verification itself runs exactly once. -/
theorem claim_C2_verify_memoized (k : Nat) (vs : VerifierState) (h : 1 ≤ k) :
    (runVerifyCalls k vs ⟨none⟩).1 = List.replicate k vs.nextPromiseId
    ∧ (runVerifyCalls k vs ⟨none⟩).2.1.verifyCalls = vs.verifyCalls + 1 := by
  obtain ⟨k, rfl⟩ : ∃ m, k = m + 1 := ⟨k - 1, by omega⟩
  simp [runVerifyCalls, callVerify, runVerifyCalls_cached, List.replicate_succ]

/-- Witness for claim C2: four calls on one delivery from a fresh verifier. -/
theorem claim_C2_witness :
    (runVerifyCalls 4 ⟨0, 0⟩ ⟨none⟩).1 = List.replicate 4 0
    ∧ (runVerifyCalls 4 ⟨0, 0⟩ ⟨none⟩).2.1.verifyCalls = 0 + 1 :=
  claim_C2_verify_memoized 4 ⟨0, 0⟩ (by decide)

/-- Lexicographic strict order on message references. -/
def refLt (a b : MsgRef) : Bool :=
  decide (a.timestamp < b.timestamp)
    || (decide (a.timestamp = b.timestamp)
        && decide (a.sequenceNumber < b.sequenceNumber))

/-- Lexicographic order on message references. -/
def refLe (a b : MsgRef) : Bool := refLt a b || decide (a = b)

/-- The gap range start used by the tracker: same timestamp, sequence number
incremented by one. -/
def succRef (r : MsgRef) : MsgRef := ⟨r.timestamp, r.sequenceNumber + 1⟩

/-- The predecessor reference named by the spec's gap rule: same timestamp,
sequence number decremented by one. -/
def predRef (r : MsgRef) : MsgRef := ⟨r.timestamp, r.sequenceNumber - 1⟩

/-- A real-time message as seen by the per-chain ordering tracker. -/
structure ChainMsg where
  ref : MsgRef
  prevMsgRef : Option MsgRef
  deriving DecidableEq, Repr

/-- A gap event emitted to the gap filler: the inclusive range to request. -/
structure GapEvent where
  fromRef : MsgRef
  toRef : MsgRef
  deriving DecidableEq, Repr

/-- Modelled from the spec and the repository's ordering tests: one step of the
per-chain OrderingTracker.  Returns the new `lastRef`, whether the message is
delivered, and the gap events emitted.  A first message or a message whose
`prevMsgRef` equals `lastRef` is delivered in order; a message at or below
`lastRef` is dropped as a duplicate; otherwise the message is delivered and one
gap is emitted with `from = succRef lastRef` and `to = prevMsgRef` (the tests
expect the gap range to end at the unchanged `prevMsgRef`). -/
def trackerStep (lastRef : Option MsgRef) (m : ChainMsg) :
    Option MsgRef × Bool × List GapEvent :=
  match lastRef with
  | none => (some m.ref, true, [])
  | some l =>
    if m.prevMsgRef = some l then (some m.ref, true, [])
    else if refLe m.ref l then (some l, false, [])
    else
      match m.prevMsgRef with
      | none => (some m.ref, true, [])
      | some p => (some m.ref, true, [⟨succRef l, p⟩])

/-- Modelled from the spec: the gap filler sends at most one
`ResendRangeRequest` per chain; a gap event arriving while one request is in
flight is dropped. -/
structure GapFillState where
  inFlight : Bool
  requests : List GapEvent
  deriving DecidableEq, Repr

/-- Modelled from the spec: handling one gap event in the gap filler. -/
def handleGap (st : GapFillState) (g : GapEvent) : GapFillState :=
  if st.inFlight then st
  else ⟨true, st.requests ++ [g]⟩

/-- Strictly smaller references are never equal. -/
theorem refLt_ne {a b : MsgRef} (h : refLt a b = true) : b ≠ a := by
  obtain ⟨t1, s1⟩ := a
  obtain ⟨t2, s2⟩ := b
  simp only [refLt, Bool.or_eq_true, Bool.and_eq_true, decide_eq_true_eq] at h
  simp only [ne_eq, MsgRef.mk.injEq, not_and]
  intro ht hs
  omega

/-- A reference strictly above `a` is not at or below `a`. -/
theorem refLe_of_lt_false {a b : MsgRef} (h : refLt a b = true) :
    refLe b a = false := by
  obtain ⟨t1, s1⟩ := a
  obtain ⟨t2, s2⟩ := b
  simp only [refLt, Bool.or_eq_true, Bool.and_eq_true, decide_eq_true_eq] at h
  cases hle : refLe ⟨t2, s2⟩ ⟨t1, s1⟩ with
  | false => rfl
  | true =>
    exfalso
    simp only [refLe, refLt, MsgRef.mk.injEq, Bool.or_eq_true, Bool.and_eq_true,
      decide_eq_true_eq] at hle
    omega

/-- Claim C3 counterexample: with `lastRef = (1,0)` delivered and the next
message at `ref = (5,0)` with `prevMsgRef = (3,0)`, the emitted gap ends at
`(3,0)` — the `prevMsgRef` itself — not at its predecessor `(3,-1)` as the
claim's `pred` rule would demand. -/
theorem claim_C3_counterexample :
    (trackerStep (some ⟨1, 0⟩) ⟨⟨5, 0⟩, some ⟨3, 0⟩⟩).2.2
      = [⟨⟨1, 1⟩, ⟨3, 0⟩⟩]
    ∧ GapEvent.toRef ⟨⟨1, 1⟩, ⟨3, 0⟩⟩ ≠ predRef ⟨3, 0⟩ := by
  refine ⟨rfl, ?_⟩
  intro h
  simp [predRef] at h

/-- Claim C3 (amended): if message `m1` with reference `l` has been delivered
and the next delivered message has `prevMsgRef = p` strictly greater than `l`,
exactly one gap event is emitted with `from = (l.timestamp, l.sequenceNumber + 1)`
and `to = p` (the `prevMsgRef` itself, inclusive); and a second gap event on
the same chain while the first fill is in flight does not produce a second
`ResendRangeRequest`. -/
theorem claim_C3_gap_detection (l p r : MsgRef) (g2 : GapEvent)
    (hlp : refLt l p = true) (hlr : refLt l r = true) :
    trackerStep (some l) ⟨r, some p⟩ = (some r, true, [⟨succRef l, p⟩])
    ∧ (handleGap (handleGap ⟨false, []⟩ ⟨succRef l, p⟩) g2).requests
      = [⟨succRef l, p⟩] := by
  constructor
  · have hne : ¬ (some p = some l) := by
      simp only [Option.some.injEq]
      exact refLt_ne hlp
    have hle : refLe r l = false := refLe_of_lt_false hlr
    simp [trackerStep, hne, hle]
  · simp [handleGap]

/-- Witness for claim C3 at the scenario of the gap tests: delivered `(1,0)`,
next message `(5,0)` with `prevMsgRef (3,0)`, second overlapping gap to `(10,0)`. -/
theorem claim_C3_witness :
    trackerStep (some ⟨1, 0⟩) ⟨⟨5, 0⟩, some ⟨3, 0⟩⟩
      = (some ⟨5, 0⟩, true, [⟨succRef ⟨1, 0⟩, ⟨3, 0⟩⟩])
    ∧ (handleGap (handleGap ⟨false, []⟩ ⟨succRef ⟨1, 0⟩, ⟨3, 0⟩⟩)
        ⟨⟨1, 1⟩, ⟨10, 0⟩⟩).requests
      = [⟨succRef ⟨1, 0⟩, ⟨3, 0⟩⟩] :=
  claim_C3_gap_detection ⟨1, 0⟩ ⟨3, 0⟩ ⟨5, 0⟩ ⟨⟨1, 1⟩, ⟨10, 0⟩⟩
    (by decide) (by decide)

/-- Modelled from the spec: a Subscription as seen by the unicast dispatcher —
its set of pending resend request-ids and the messages its resent-message
handler has received. -/
structure RSub where
  pendingResendIds : List String
  handled : List String
  deriving DecidableEq, Repr

/-- Modelled from the spec: routing one inbound `UnicastMessage`.  The message
is handed to the subscription whose pending resend request-id matches; when no
subscription matches, a client-level error is emitted, no handler runs and no
subscription changes. -/
def dispatchUnicast : List RSub → String → String → List RSub × List String
  | [], reqId, _ => ([], ["Received unexpected UnicastMessage " ++ reqId])
  | s :: rest, reqId, payload =>
    if s.pendingResendIds.contains reqId then
      ({ s with handled := s.handled ++ [payload] } :: rest, [])
    else
      let next := dispatchUnicast rest reqId payload
      (s :: next.1, next.2)

/-- When no subscription has the request id pending, dispatch changes nothing
and emits the unexpected-unicast error. -/
theorem dispatchUnicast_no_match (reqId payload : String) :
    ∀ (subs : List RSub),
    (∀ x ∈ subs, reqId ∉ x.pendingResendIds) →
    dispatchUnicast subs reqId payload
      = (subs, ["Received unexpected UnicastMessage " ++ reqId]) := by
  intro subs
  induction subs with
  | nil => intro _; rfl
  | cons s rest ih =>
    intro hall
    have hs : reqId ∉ s.pendingResendIds := hall s (by simp)
    have hrest := ih (fun x hx => hall x (by simp [hx]))
    simp [dispatchUnicast, hs, hrest]

/-- Claim C8: an inbound `UnicastMessage` is delivered exactly to the
subscription whose pending resend request-id matches, leaving every other
subscription unchanged and emitting no error; when no subscription matches, an
error reading `Received unexpected UnicastMessage` is emitted, no handler is
invoked and no subscription changes. -/
theorem claim_C8_unicast_routing (pre post subsNoMatch : List RSub) (s : RSub)
    (reqId payload : String)
    (hmatch : reqId ∈ s.pendingResendIds)
    (hpre : ∀ x ∈ pre, reqId ∉ x.pendingResendIds)
    (hnone : ∀ x ∈ subsNoMatch, reqId ∉ x.pendingResendIds) :
    dispatchUnicast (pre ++ s :: post) reqId payload
      = (pre ++ { s with handled := s.handled ++ [payload] } :: post, [])
    ∧ dispatchUnicast subsNoMatch reqId payload
      = (subsNoMatch, ["Received unexpected UnicastMessage " ++ reqId]) := by
  refine ⟨?_, dispatchUnicast_no_match reqId payload subsNoMatch hnone⟩
  induction pre with
  | nil => simp [dispatchUnicast, hmatch]
  | cons x rest ih =>
    have hx : reqId ∉ x.pendingResendIds := hpre x (by simp)
    have hih := ih (fun y hy => hpre y (by simp [hy]))
    simp [dispatchUnicast, hx, hih]

/-- Witness for claim C8: two subscriptions where only the second has the
resend id pending, and a registry where no subscription has it. -/
theorem claim_C8_witness :
    dispatchUnicast ([⟨["a"], []⟩] ++ ⟨["rq"], []⟩ :: [⟨["rq"], ["old"]⟩]) "rq" "msg"
      = ([⟨["a"], []⟩] ++ ⟨["rq"], ["msg"]⟩ :: [⟨["rq"], ["old"]⟩], [])
    ∧ dispatchUnicast [⟨["a"], []⟩] "rq" "msg"
      = ([⟨["a"], []⟩], ["Received unexpected UnicastMessage " ++ "rq"]) :=
  claim_C8_unicast_routing [⟨["a"], []⟩] [⟨["rq"], ["old"]⟩] [⟨["a"], []⟩]
    ⟨["rq"], []⟩ "rq" "msg" (by decide) (by decide) (by decide)

/-- A message id, mirroring `MessageID` of the message layer. -/
structure MessageID where
  streamId : String
  streamPartition : Nat
  timestamp : Int
  sequenceNumber : Int
  publisherId : String
  msgChainId : String
  deriving DecidableEq, Repr

/-- A stream message, mirroring the `StreamMessage` record used by the client. -/
structure StreamMessage where
  messageId : MessageID
  prevMsgRef : Option MsgRef
  content : String
  contentType : Nat
  encryptionType : Nat
  signatureType : Nat
  signature : String
  deriving DecidableEq, Repr

/-- Mirrors `Signer.signStreamMessage`: it throws when the timestamp is falsey,
then sets `signatureType`, overwrites `messageId.publisherId` with the signer's
address, computes the payload to sign from the updated message and stores the
signature produced by `signData` on the message; `signData` accepts only the
`ETH_LEGACY` (1) and `ETH` (2) signature types.  The signing primitive and the
payload serialization live in external packages and are parameters here. -/
def signStreamMessage (addr : String) (sign : String → String)
    (payload : StreamMessage → String) (sigType : Nat) (m : StreamMessage) :
    Except String StreamMessage :=
  if m.messageId.timestamp = 0 then
    Except.error "Timestamp is required as part of the data to sign."
  else
    let m1 : StreamMessage :=
      { m with signatureType := sigType
               messageId := { m.messageId with publisherId := addr } }
    if sigType = 1 ∨ sigType = 2 then
      Except.ok { m1 with signature := sign (payload m1) }
    else Except.error "Unrecognized signature type"

/-- A concrete unsigned message used to exercise the signer. -/
def sampleUnsigned : StreamMessage :=
  ⟨⟨"s1", 0, 1, 0, "alice", "chain1"⟩, none, "content", 27, 0, 0, ""⟩

/-- Claim C9 counterexample: signing is not field-preserving — after
`signStreamMessage` the message's `publisherId` is the signer's address, not
the one the message was constructed with (the source also rewrites
`signatureType` and `signature` in place). -/
theorem claim_C9_counterexample :
    signStreamMessage "0xF" (fun _ => "sig") (fun _ => "payload") 2 sampleUnsigned
      = Except.ok ⟨⟨"s1", 0, 1, 0, "0xF", "chain1"⟩, none, "content", 27, 0, 2, "sig"⟩
    ∧ sampleUnsigned.messageId.publisherId ≠ "0xF" := by
  refine ⟨rfl, ?_⟩
  intro h
  simp [sampleUnsigned] at h

/-- Claim C9 (amended): `signStreamMessage` mutates exactly `signatureType`,
`messageId.publisherId` (set to the signer's address) and `signature`; every
other field of a successfully signed message — stream id, partition,
timestamp, sequence number, chain id, `prevMsgRef`, content, content type and
encryption type — is unchanged. -/
theorem claim_C9_sign_frame (addr : String) (sign : String → String)
    (payload : StreamMessage → String) (sigType : Nat)
    (m m2 : StreamMessage)
    (h : signStreamMessage addr sign payload sigType m = Except.ok m2) :
    m2.messageId.streamId = m.messageId.streamId
    ∧ m2.messageId.streamPartition = m.messageId.streamPartition
    ∧ m2.messageId.timestamp = m.messageId.timestamp
    ∧ m2.messageId.sequenceNumber = m.messageId.sequenceNumber
    ∧ m2.messageId.msgChainId = m.messageId.msgChainId
    ∧ m2.prevMsgRef = m.prevMsgRef
    ∧ m2.content = m.content
    ∧ m2.contentType = m.contentType
    ∧ m2.encryptionType = m.encryptionType
    ∧ m2.messageId.publisherId = addr
    ∧ m2.signatureType = sigType := by
  rw [signStreamMessage] at h
  split at h
  · exact absurd h (by simp)
  · split at h
    · simp only [Except.ok.injEq] at h
      subst h
      simp
    · exact absurd h (by simp)

/-- Witness for claim C9 at the sample message. -/
theorem claim_C9_witness :
    (⟨⟨"s1", 0, 1, 0, "0xF", "chain1"⟩, none, "content", 27, 0, 2,
        "sig"⟩ : StreamMessage).messageId.streamId
      = sampleUnsigned.messageId.streamId
    ∧ (⟨⟨"s1", 0, 1, 0, "0xF", "chain1"⟩, none, "content", 27, 0, 2,
        "sig"⟩ : StreamMessage).messageId.streamPartition
      = sampleUnsigned.messageId.streamPartition
    ∧ (⟨⟨"s1", 0, 1, 0, "0xF", "chain1"⟩, none, "content", 27, 0, 2,
        "sig"⟩ : StreamMessage).messageId.timestamp
      = sampleUnsigned.messageId.timestamp
    ∧ (⟨⟨"s1", 0, 1, 0, "0xF", "chain1"⟩, none, "content", 27, 0, 2,
        "sig"⟩ : StreamMessage).messageId.sequenceNumber
      = sampleUnsigned.messageId.sequenceNumber
    ∧ (⟨⟨"s1", 0, 1, 0, "0xF", "chain1"⟩, none, "content", 27, 0, 2,
        "sig"⟩ : StreamMessage).messageId.msgChainId
      = sampleUnsigned.messageId.msgChainId
    ∧ (⟨⟨"s1", 0, 1, 0, "0xF", "chain1"⟩, none, "content", 27, 0, 2,
        "sig"⟩ : StreamMessage).prevMsgRef = sampleUnsigned.prevMsgRef
    ∧ (⟨⟨"s1", 0, 1, 0, "0xF", "chain1"⟩, none, "content", 27, 0, 2,
        "sig"⟩ : StreamMessage).content = sampleUnsigned.content
    ∧ (⟨⟨"s1", 0, 1, 0, "0xF", "chain1"⟩, none, "content", 27, 0, 2,
        "sig"⟩ : StreamMessage).contentType = sampleUnsigned.contentType
    ∧ (⟨⟨"s1", 0, 1, 0, "0xF", "chain1"⟩, none, "content", 27, 0, 2,
        "sig"⟩ : StreamMessage).encryptionType = sampleUnsigned.encryptionType
    ∧ (⟨⟨"s1", 0, 1, 0, "0xF", "chain1"⟩, none, "content", 27, 0, 2,
        "sig"⟩ : StreamMessage).messageId.publisherId = "0xF"
    ∧ (⟨⟨"s1", 0, 1, 0, "0xF", "chain1"⟩, none, "content", 27, 0, 2,
        "sig"⟩ : StreamMessage).signatureType = 2 :=
  claim_C9_sign_frame "0xF" (fun _ => "sig") (fun _ => "payload") 2
    sampleUnsigned _ rfl

/-- Mirrors `MessageCreationUtil.computeStreamPartition`.  A falsey (zero)
partition count throws; one partition short-circuits to 0; with a truthy
(nonempty) partition key the partition is the absolute value of the signed
32-bit read of the md5 hash modulo the count (the hash read is a parameter);
without a key it is `Math.floor(Math.random() * partitionCount)`, modelled by
the parameter `rand`. -/
def computeStreamPartition (partitionCount : Nat) (partitionKey : String)
    (intHash : String → Int) (rand : Nat) : Except String Nat :=
  if partitionCount = 0 then Except.error "partitionCount is falsey!"
  else if partitionCount = 1 then Except.ok 0
  else if partitionKey ≠ "" then
    Except.ok ((intHash partitionKey).natAbs % partitionCount)
  else Except.ok rand

/-- Claim C10: with a positive partition count and an in-range random fallback,
`computeStreamPartition` returns a partition strictly below the count — using
the hashed key when one is given — and the error branch is reached exactly on
a zero (falsey) partition count. -/
theorem claim_C10_partition_bounds (partitionCount : Nat) (partitionKey : String)
    (intHash : String → Int) (rand : Nat)
    (hc : 1 ≤ partitionCount) (hr : rand < partitionCount) :
    (∃ p, computeStreamPartition partitionCount partitionKey intHash rand
        = Except.ok p ∧ p < partitionCount)
    ∧ (partitionKey ≠ "" → 2 ≤ partitionCount →
        computeStreamPartition partitionCount partitionKey intHash rand
          = Except.ok ((intHash partitionKey).natAbs % partitionCount))
    ∧ (partitionKey = "" → 2 ≤ partitionCount →
        computeStreamPartition partitionCount partitionKey intHash rand
          = Except.ok rand)
    ∧ computeStreamPartition 0 partitionKey intHash rand
      = Except.error "partitionCount is falsey!" := by
  have hc0 : ¬ partitionCount = 0 := by omega
  refine ⟨?_, ?_, ?_, rfl⟩
  · by_cases h1 : partitionCount = 1
    · exact ⟨0, by simp [computeStreamPartition, hc0, h1], by omega⟩
    · by_cases hk : partitionKey = ""
      · exact ⟨rand, by simp [computeStreamPartition, hc0, h1, hk], hr⟩
      · refine ⟨(intHash partitionKey).natAbs % partitionCount, ?_, ?_⟩
        · simp [computeStreamPartition, hc0, h1, hk]
        · exact Nat.mod_lt _ (by omega)
  · intro hk h2
    have h1 : ¬ partitionCount = 1 := by omega
    simp [computeStreamPartition, hc0, h1, hk]
  · intro hk h2
    have h1 : ¬ partitionCount = 1 := by omega
    simp [computeStreamPartition, hc0, h1, hk]

/-- Witness for claim C10: four partitions, a key hashing to a negative 32-bit
value, and random fallback 2. -/
theorem claim_C10_witness :
    (∃ p, computeStreamPartition 4 "key" (fun _ => -7) 2
        = Except.ok p ∧ p < 4)
    ∧ ("key" ≠ "" → 2 ≤ 4 →
        computeStreamPartition 4 "key" (fun _ => -7) 2
          = Except.ok ((((fun (_ : String) => (-7 : Int)) "key").natAbs) % 4))
    ∧ ("key" = "" → 2 ≤ 4 →
        computeStreamPartition 4 "key" (fun _ => -7) 2 = Except.ok 2)
    ∧ computeStreamPartition 0 "key" (fun _ => -7) 2
      = Except.error "partitionCount is falsey!" :=
  claim_C10_partition_bounds 4 "key" (fun _ => -7) 2 (by decide) (by decide)

end Streamr
